import Mathlib

/-!
# Verification of the test-pass metrics accumulator

Shallow embedding of `src/main_new.py`: the `MetricsLoggingCallback`
(the spec's Test-Pass Accumulator) together with its interaction with
the mlflow run context and the external `MetricsReporter`.

Modelling choices:
* a numpy 2-D array over floats becomes `List (List ℝ)` (a list of rows);
  floating-point rounding is abstracted to exact real arithmetic;
* `tensor.cpu().numpy()` is the identity in this host-array model;
* `np.concatenate(xs, axis=0)` joins the rows of the member arrays in
  order and raises on an empty argument list;
* the mlflow/reporter side effects are recorded as an event trace, and
  an exception becomes an `Except.error` return paired with the state of
  the callback object at the moment the exception escapes.
-/

/-- Errors of the embedded operations.  `NoDataError` is the spec's name
for the `ValueError` that `np.concatenate` raises on an empty list;
`ShapeMismatchError` and `TrackingBackendError` are the failures of the
external `MetricsReporter` / tracking backend described in the spec. -/
inductive PyError where
  | NoDataError
  | ShapeMismatchError
  | TrackingBackendError
  deriving DecidableEq, Repr

/-- A host-resident 2-D numeric array: a list of rows. -/
abbrev NDArray := List (List ℝ)

/-- `scipy.special.expit` (imported as `sigmoid` in `main_new.py`),
modelled over exact reals. -/
noncomputable def sigmoid (x : ℝ) : ℝ := 1 / (1 + Real.exp (-x))

/-- Elementwise application of `sigmoid` to a 2-D array
(line 56: `y_pred_proba = sigmoid(all_preds)`). -/
noncomputable def npSigmoid (a : NDArray) : NDArray :=
  a.map (fun row => row.map sigmoid)

/-- `np.concatenate(arrs, axis=0)`: concatenation along the batch axis.
numpy raises `ValueError` ("need at least one array to concatenate") on
an empty list, which the spec names `NoDataError`. -/
def npConcatenate (arrs : List NDArray) : Except PyError NDArray :=
  match arrs with
  | [] => Except.error PyError.NoDataError
  | a :: rest => Except.ok (List.flatten (a :: rest))

/-- The `outputs` mapping handed to `on_test_batch_end` when present:
keys `logits` and `labels`, already materialized as host arrays. -/
structure BatchOutput where
  logits : NDArray
  labels : NDArray

/-- The mutable state of a `MetricsLoggingCallback` object: the two
accumulation buffers (lists of per-batch arrays). -/
structure MetricsLoggingCallback where
  all_preds : List NDArray
  all_labels : List NDArray

/-- `MetricsLoggingCallback.__init__` (lines 34-37): both buffers start
empty. -/
def MetricsLoggingCallback.init : MetricsLoggingCallback :=
  { all_preds := [], all_labels := [] }

/-- `on_test_batch_end` (lines 39-48): when `outputs` is `None` nothing
happens; otherwise the (host copies of the) logits and labels arrays are
appended to the two buffers. -/
def on_test_batch_end (self : MetricsLoggingCallback)
    (outputs : Option BatchOutput) : MetricsLoggingCallback :=
  match outputs with
  | none => self
  | some o =>
      { all_preds := self.all_preds ++ [o.logits]
        all_labels := self.all_labels ++ [o.labels] }

/-- Observable side effects of `on_test_end` on the tracking system and
the reporter, in call order. -/
inductive RunEvent where
  | setTrackingUri (uri : String)
  | enterRun (run_id : String)
  | exitRun (run_id : String)
  | calculate (labels : NDArray) (probs : NDArray)
  | publish

/-- `true` exactly on the `publish` event. -/
def RunEvent.isPublish : RunEvent → Bool
  | RunEvent.publish => true
  | _ => false

/-- The ambient environment `on_test_end` reads: the tracking URI held
by the trainer's logger, the in-process active run (`mlflow.active_run()`),
and whether the tracking backend will accept the publish call. -/
structure MlflowEnv where
  tracking_uri : String
  activeRun : Option String
  backendOk : Bool

/-- Modelled from the spec: `MetricsReporter.calculate_metrics` lives in
`src/interpretability/evaluation`, which is not among the given sources.
Per the spec it is a pure computation over two same-length arrays that
"fails with a `ShapeMismatchError` if lengths differ". -/
def calculate_metrics (labels probs : NDArray) : Except PyError Unit :=
  if labels.length = probs.length then Except.ok ()
  else Except.error PyError.ShapeMismatchError

/-- Modelled from the spec: the reporter body executed by `on_test_end`
(lines 67-69 and 72-74): construct a `MetricsReporter`, run
`calculate_metrics`, then `log_to_mlflow` ("publish"), which "fails with
a `TrackingBackendError` if the backend is unreachable"
(`backendOk = false`).  Returns the outcome and the trace of reporter
calls that were attempted. -/
def reportMetrics (backendOk : Bool) (labels probs : NDArray) :
    Except PyError Unit × List RunEvent :=
  match calculate_metrics labels probs with
  | Except.error e => (Except.error e, [RunEvent.calculate labels probs])
  | Except.ok _ =>
      if backendOk then
        (Except.ok (), [RunEvent.calculate labels probs, RunEvent.publish])
      else
        (Except.error PyError.TrackingBackendError,
          [RunEvent.calculate labels probs, RunEvent.publish])

/-- `on_test_end` (lines 50-78).  Returns the call's outcome (normal
return or escaping exception), the callback state at the moment the call
returns, and the event trace.  Faithful control flow:
1. concatenate the two buffers (lines 52-53; raises on empty buffers);
2. `y_pred_proba = sigmoid(all_preds)` (line 56);
3. `mlflow.set_tracking_uri(...)` (line 60);
4. if `mlflow.active_run()` is `None` (line 64), run the reporter inside
   `with mlflow.start_run(run_id=run_id)` — the `with` block exits the
   run even when the body raises; otherwise run the reporter directly;
5. the buffer-clearing assignments (lines 77-78) are trailing statements,
   executed only when no exception escaped step 4. -/
noncomputable def on_test_end (env : MlflowEnv) (run_id : String)
    (self : MetricsLoggingCallback) :
    Except PyError Unit × MetricsLoggingCallback × List RunEvent :=
  match npConcatenate self.all_preds with
  | Except.error e => (Except.error e, self, [])
  | Except.ok all_preds =>
    match npConcatenate self.all_labels with
    | Except.error e => (Except.error e, self, [])
    | Except.ok all_labels =>
      let y_pred_proba := npSigmoid all_preds
      let uriEv := [RunEvent.setTrackingUri env.tracking_uri]
      match env.activeRun with
      | none =>
          let r := reportMetrics env.backendOk all_labels y_pred_proba
          let trace := uriEv ++ [RunEvent.enterRun run_id] ++ r.2 ++
            [RunEvent.exitRun run_id]
          match r.1 with
          | Except.error e => (Except.error e, self, trace)
          | Except.ok _ =>
              (Except.ok (), { all_preds := [], all_labels := [] }, trace)
      | some _ =>
          let r := reportMetrics env.backendOk all_labels y_pred_proba
          match r.1 with
          | Except.error e => (Except.error e, self, uriEv ++ r.2)
          | Except.ok _ =>
              (Except.ok (), { all_preds := [], all_labels := [] }, uriEv ++ r.2)

/-- Feed a sequence of per-batch outputs through `on_test_batch_end` in
visit order. -/
def runBatches (self : MetricsLoggingCallback)
    (outs : List (Option BatchOutput)) : MetricsLoggingCallback :=
  outs.foldl on_test_batch_end self

/-- One whole test pass: observe the batches, then complete the pass. -/
noncomputable def runPass (env : MlflowEnv) (run_id : String)
    (self : MetricsLoggingCallback) (outs : List (Option BatchOutput)) :
    Except PyError Unit × MetricsLoggingCallback × List RunEvent :=
  on_test_end env run_id (runBatches self outs)

/-! ## Helper lemmas -/

theorem npSigmoid_length (a : NDArray) : (npSigmoid a).length = a.length := by
  simp [npSigmoid]

theorem npConcatenate_of_ne_nil (arrs : List NDArray) (h : arrs ≠ []) :
    npConcatenate arrs = Except.ok arrs.flatten := by
  cases arrs with
  | nil => exact absurd rfl h
  | cons a rest => rfl

theorem runBatches_all_preds (outs : List (Option BatchOutput))
    (s : MetricsLoggingCallback) :
    (runBatches s outs).all_preds =
      s.all_preds ++ outs.reduceOption.map BatchOutput.logits := by
  induction outs generalizing s with
  | nil => simp [runBatches, List.reduceOption]
  | cons o rest ih =>
      cases o with
      | none =>
          simpa [runBatches, on_test_batch_end] using ih s
      | some b =>
          have := ih (on_test_batch_end s (some b))
          simp [runBatches, on_test_batch_end] at this ⊢
          simp [this]

theorem runBatches_all_labels (outs : List (Option BatchOutput))
    (s : MetricsLoggingCallback) :
    (runBatches s outs).all_labels =
      s.all_labels ++ outs.reduceOption.map BatchOutput.labels := by
  induction outs generalizing s with
  | nil => simp [runBatches, List.reduceOption]
  | cons o rest ih =>
      cases o with
      | none =>
          simpa [runBatches, on_test_batch_end] using ih s
      | some b =>
          have := ih (on_test_batch_end s (some b))
          simp [runBatches, on_test_batch_end] at this ⊢
          simp [this]

/-- Structural case analysis of `on_test_end`: a normal return leaves the
buffers reset; any exceptional return leaves the state untouched. -/
theorem on_test_end_state_cases (env : MlflowEnv) (run_id : String)
    (s : MetricsLoggingCallback) :
    ((on_test_end env run_id s).1 = Except.ok () ∧
      (on_test_end env run_id s).2.1 =
        { all_preds := [], all_labels := [] }) ∨
    ((∃ e, (on_test_end env run_id s).1 = Except.error e) ∧
      (on_test_end env run_id s).2.1 = s) := by
  unfold on_test_end
  rcases hP : npConcatenate s.all_preds with e | P
  · exact Or.inr ⟨⟨e, rfl⟩, rfl⟩
  · rcases hL : npConcatenate s.all_labels with e | L
    · exact Or.inr ⟨⟨e, rfl⟩, rfl⟩
    · cases hA : env.activeRun with
      | none =>
          rcases hr : (reportMetrics env.backendOk L (npSigmoid P)).1 with e | u
          · exact Or.inr ⟨⟨e, by simp [hr]⟩, by simp [hr]⟩
          · exact Or.inl ⟨by simp [hr], by simp [hr]⟩
      | some r =>
          rcases hr : (reportMetrics env.backendOk L (npSigmoid P)).1 with e | u
          · exact Or.inr ⟨⟨e, by simp [hr]⟩, by simp [hr]⟩
          · exact Or.inl ⟨by simp [hr], by simp [hr]⟩

theorem on_test_end_ok_state (env : MlflowEnv) (run_id : String)
    (s : MetricsLoggingCallback)
    (h : (on_test_end env run_id s).1 = Except.ok ()) :
    (on_test_end env run_id s).2.1 = { all_preds := [], all_labels := [] } := by
  rcases on_test_end_state_cases env run_id s with ⟨_, h2⟩ | ⟨⟨e, he⟩, _⟩
  · exact h2
  · rw [he] at h; exact absurd h (by simp)

theorem on_test_end_error_state (env : MlflowEnv) (run_id : String)
    (s : MetricsLoggingCallback) (e : PyError)
    (h : (on_test_end env run_id s).1 = Except.error e) :
    (on_test_end env run_id s).2.1 = s := by
  rcases on_test_end_state_cases env run_id s with ⟨h1, _⟩ | ⟨_, h2⟩
  · rw [h1] at h; exact absurd h (by simp)
  · exact h2

theorem on_test_end_empty_preds (env : MlflowEnv) (run_id : String)
    (s : MetricsLoggingCallback) (h : s.all_preds = []) :
    (on_test_end env run_id s).1 = Except.error PyError.NoDataError := by
  unfold on_test_end
  simp [h, npConcatenate]

theorem reduceOption_map_some (outs : List BatchOutput) :
    (outs.map some).reduceOption = outs := by
  induction outs with
  | nil => simp [List.reduceOption]
  | cons o rest ih => simp [List.reduceOption, ih]

/-! ## Concrete fixtures used by witnesses and counterexamples -/

/-- An environment with an already-active run and a reachable backend. -/
def envActiveOk : MlflowEnv :=
  { tracking_uri := "sqlite:mlruns.db", activeRun := some "run0", backendOk := true }

/-- An environment with an already-active run and an unreachable backend. -/
def envActiveFail : MlflowEnv :=
  { tracking_uri := "sqlite:mlruns.db", activeRun := some "run0", backendOk := false }

/-- An environment with no active run and a reachable backend. -/
def envIdleOk : MlflowEnv :=
  { tracking_uri := "sqlite:mlruns.db", activeRun := none, backendOk := true }

/-- A callback state holding one accumulated size-1 batch. -/
noncomputable def sOne : MetricsLoggingCallback :=
  { all_preds := [[[2]]], all_labels := [[[1]]] }

/-! ## Claim theorems -/

/-- C5: `on_test_batch_end` never fails on well-formed input: a `None`
batch output is a silent no-op leaving both buffers unchanged, while a
present output appends exactly one converted array to each of the two
buffers (and, being a pure state update, returns no other value). -/
theorem C5_on_test_batch_end_behavior (s : MetricsLoggingCallback)
    (outputs : Option BatchOutput) :
    on_test_batch_end s outputs =
      match outputs with
      | none => s
      | some o =>
          { all_preds := s.all_preds ++ [o.logits]
            all_labels := s.all_labels ++ [o.labels] } := by
  cases outputs <;> rfl

/-- C10: buffer-length invariant: the two buffers have equal length right
after construction, and every `on_test_batch_end` call — with a present
or an absent batch output — preserves that equality. -/
theorem C10_buffer_length_invariant :
    MetricsLoggingCallback.init.all_preds.length =
      MetricsLoggingCallback.init.all_labels.length ∧
    ∀ (s : MetricsLoggingCallback) (outputs : Option BatchOutput),
      s.all_preds.length = s.all_labels.length →
      (on_test_batch_end s outputs).all_preds.length =
        (on_test_batch_end s outputs).all_labels.length := by
  refine ⟨rfl, ?_⟩
  intro s outputs h
  cases outputs <;> simp [on_test_batch_end, h]

theorem C10_buffer_length_invariant_witness :
    (on_test_batch_end MetricsLoggingCallback.init
        (some { logits := [[2]], labels := [[1]] })).all_preds.length =
      (on_test_batch_end MetricsLoggingCallback.init
        (some { logits := [[2]], labels := [[1]] })).all_labels.length :=
  C10_buffer_length_invariant.2 MetricsLoggingCallback.init
    (some { logits := [[2]], labels := [[1]] }) rfl

/-- C3: invoking `on_test_end` with both accumulation buffers empty
signals `NoDataError` to the caller (the `ValueError` that
`np.concatenate` raises on an empty list, line 52). -/
theorem C3_empty_buffers_no_data_error (env : MlflowEnv) (run_id : String)
    (s : MetricsLoggingCallback)
    (hp : s.all_preds = []) (_hl : s.all_labels = []) :
    (on_test_end env run_id s).1 = Except.error PyError.NoDataError :=
  on_test_end_empty_preds env run_id s hp

theorem C3_empty_buffers_no_data_error_witness :
    (on_test_end envIdleOk "run0" MetricsLoggingCallback.init).1 =
      Except.error PyError.NoDataError :=
  C3_empty_buffers_no_data_error envIdleOk "run0"
    MetricsLoggingCallback.init rfl rfl

/-- C7: calling `on_test_end` a second time immediately after a first
call that completed normally, with no intervening `on_test_batch_end`,
raises `NoDataError`: the first call left both buffers empty. -/
theorem C7_second_call_raises_no_data (env1 env2 : MlflowEnv)
    (rid1 rid2 : String) (s : MetricsLoggingCallback)
    (h : (on_test_end env1 rid1 s).1 = Except.ok ()) :
    (on_test_end env2 rid2 (on_test_end env1 rid1 s).2.1).1 =
      Except.error PyError.NoDataError := by
  rw [on_test_end_ok_state env1 rid1 s h]
  exact on_test_end_empty_preds env2 rid2 _ rfl

theorem C7_second_call_raises_no_data_witness :
    (on_test_end envIdleOk "run0"
        (on_test_end envActiveOk "run0" sOne).2.1).1 =
      Except.error PyError.NoDataError :=
  C7_second_call_raises_no_data envActiveOk envIdleOk "run0" "run0" sOne
    (by simp [on_test_end, envActiveOk, sOne, npConcatenate,
      reportMetrics, calculate_metrics, npSigmoid])

/-- C1 counterexample: with one accumulated batch, an already-active run
and a backend whose publish call raises `TrackingBackendError`, the
error propagates out of `on_test_end` — but immediately after the call
returns via that exception, both buffers still hold the batch: the
clearing assignments at lines 77-78 are trailing statements that the
exception skips, so the claimed "empty on every exit path" fails. -/
theorem C1_counterexample :
    (on_test_end envActiveFail "run0" sOne).1 =
      Except.error PyError.TrackingBackendError ∧
    (on_test_end envActiveFail "run0" sOne).2.1.all_preds = [[[2]]] ∧
    (on_test_end envActiveFail "run0" sOne).2.1.all_labels = [[[1]]] := by
  refine ⟨?_, ?_, ?_⟩ <;>
    simp [on_test_end, envActiveFail, sOne, npConcatenate,
      reportMetrics, calculate_metrics, npSigmoid]

/-- C1 amended: `on_test_end` resets both buffers exactly on the
normal-return path past the concatenation step; when the publish step
raises `TrackingBackendError` the error still propagates to the caller,
but the buffers are NOT reset — they keep their pre-call contents. -/
theorem C1_reset_only_on_normal_return (env : MlflowEnv) (run_id : String)
    (s : MetricsLoggingCallback) :
    ((on_test_end env run_id s).1 = Except.ok () →
      (on_test_end env run_id s).2.1 =
        { all_preds := [], all_labels := [] }) ∧
    ∀ e, (on_test_end env run_id s).1 = Except.error e →
      (on_test_end env run_id s).2.1 = s :=
  ⟨on_test_end_ok_state env run_id s,
    fun e => on_test_end_error_state env run_id s e⟩

theorem C1_reset_only_on_normal_return_witness :
    (on_test_end envActiveFail "run0" sOne).2.1 = sOne :=
  (C1_reset_only_on_normal_return envActiveFail "run0" sOne).2
    PyError.TrackingBackendError
    (by simp [on_test_end, envActiveFail, sOne, npConcatenate,
      reportMetrics, calculate_metrics, npSigmoid])

/-- C4: for every nonempty sequence of present batch outputs whose
per-batch logits and labels agree in batch size, the two concatenations
in `on_test_end` succeed and yield exactly the per-batch rows in visit
order (batch i's rows precede batch j's for i < j), with aggregated
length Σ bᵢ on both sides. -/
theorem C4_aggregation_length_order (outs : List BatchOutput)
    (hne : outs ≠ [])
    (hsz : ∀ o ∈ outs, o.logits.length = o.labels.length) :
    npConcatenate
        (runBatches MetricsLoggingCallback.init (outs.map some)).all_preds =
      Except.ok (outs.map BatchOutput.logits).flatten ∧
    npConcatenate
        (runBatches MetricsLoggingCallback.init (outs.map some)).all_labels =
      Except.ok (outs.map BatchOutput.labels).flatten ∧
    (outs.map BatchOutput.logits).flatten.length =
      (outs.map fun o => o.logits.length).sum ∧
    (outs.map BatchOutput.labels).flatten.length =
      (outs.map fun o => o.logits.length).sum := by
  have hp := runBatches_all_preds (outs.map some) MetricsLoggingCallback.init
  have hl := runBatches_all_labels (outs.map some) MetricsLoggingCallback.init
  rw [reduceOption_map_some] at hp hl
  rw [show MetricsLoggingCallback.init.all_preds = [] from rfl,
    List.nil_append] at hp
  rw [show MetricsLoggingCallback.init.all_labels = [] from rfl,
    List.nil_append] at hl
  have hne1 : outs.map BatchOutput.logits ≠ [] := by
    simpa using hne
  have hne2 : outs.map BatchOutput.labels ≠ [] := by
    simpa using hne
  refine ⟨?_, ?_, ?_, ?_⟩
  · rw [hp]; exact npConcatenate_of_ne_nil _ hne1
  · rw [hl]; exact npConcatenate_of_ne_nil _ hne2
  · rw [List.length_flatten, List.map_map]
    rfl
  · rw [List.length_flatten]
    rw [List.map_map]
    congr 1
    exact List.map_congr_left fun o ho => (hsz o ho).symm

theorem C4_aggregation_length_order_witness :
    npConcatenate
        (runBatches MetricsLoggingCallback.init
          ([({ logits := [[2]], labels := [[1]] } : BatchOutput)].map some)).all_preds =
      Except.ok [[(2 : ℝ)]] :=
  (C4_aggregation_length_order [{ logits := [[2]], labels := [[1]] }]
    (by simp) (by simp)).1

/-- C2: run-context protocol.  With nonempty, shape-consistent buffers,
the observable trace of `on_test_end` is exactly: when no run is active,
a scoped attachment to `run_id` (entered, then exited after the publish —
no new run left active) around one calculate-then-publish sequence; when
a run is already active, one direct calculate-then-publish sequence with
no run-enter attempt.  In both branches calculate and publish each occur
exactly once. -/
theorem C2_run_context_protocol (env : MlflowEnv) (run_id : String)
    (s : MetricsLoggingCallback)
    (hp : s.all_preds ≠ []) (hl : s.all_labels ≠ [])
    (hlen : s.all_preds.flatten.length = s.all_labels.flatten.length) :
    (on_test_end env run_id s).2.2 =
      match env.activeRun with
      | none =>
          [RunEvent.setTrackingUri env.tracking_uri,
            RunEvent.enterRun run_id,
            RunEvent.calculate s.all_labels.flatten
              (npSigmoid s.all_preds.flatten),
            RunEvent.publish,
            RunEvent.exitRun run_id]
      | some _ =>
          [RunEvent.setTrackingUri env.tracking_uri,
            RunEvent.calculate s.all_labels.flatten
              (npSigmoid s.all_preds.flatten),
            RunEvent.publish] := by
  have h1 := npConcatenate_of_ne_nil s.all_preds hp
  have h2 := npConcatenate_of_ne_nil s.all_labels hl
  have hcalc : calculate_metrics s.all_labels.flatten
      (npSigmoid s.all_preds.flatten) = Except.ok () := by
    simp [calculate_metrics, npSigmoid_length, hlen]
  unfold on_test_end
  rw [h1, h2]
  cases hA : env.activeRun <;> cases hB : env.backendOk <;>
    simp [reportMetrics, hcalc]

theorem C2_run_context_protocol_witness :
    (on_test_end envIdleOk "run0" sOne).2.2 =
      [RunEvent.setTrackingUri envIdleOk.tracking_uri,
        RunEvent.enterRun "run0",
        RunEvent.calculate sOne.all_labels.flatten
          (npSigmoid sOne.all_preds.flatten),
        RunEvent.publish,
        RunEvent.exitRun "run0"] :=
  C2_run_context_protocol envIdleOk "run0" sOne
    (by simp [sOne]) (by simp [sOne]) (by simp [sOne])

theorem sigmoid_pos (x : ℝ) : 0 < sigmoid x := by
  unfold sigmoid
  positivity

theorem sigmoid_lt_one (x : ℝ) : sigmoid x < 1 := by
  unfold sigmoid
  rw [div_lt_one (by positivity)]
  linarith [Real.exp_pos (-x)]

/-- C6: the probability array produced by the elementwise sigmoid
transform has the same 2-D shape as the logits array (same row count and
same per-row lengths), and every element lies strictly inside (0, 1).
In this exact-real model every logit is finite. -/
theorem C6_sigmoid_open_unit_interval (a : NDArray) :
    (npSigmoid a).length = a.length ∧
    (npSigmoid a).map List.length = a.map List.length ∧
    ∀ row ∈ npSigmoid a, ∀ p ∈ row, 0 < p ∧ p < 1 := by
  refine ⟨npSigmoid_length a, ?_, ?_⟩
  · simp [npSigmoid, List.map_map]
  · intro row hrow p hp
    rw [npSigmoid, List.mem_map] at hrow
    obtain ⟨row0, _, rfl⟩ := hrow
    rw [List.mem_map] at hp
    obtain ⟨x, _, rfl⟩ := hp
    exact ⟨sigmoid_pos x, sigmoid_lt_one x⟩

theorem C6_sigmoid_open_unit_interval_witness :
    0 < sigmoid 0 ∧ sigmoid 0 < 1 :=
  (C6_sigmoid_open_unit_interval [[0]]).2.2 [sigmoid 0]
    (by simp [npSigmoid]) (sigmoid 0) (by simp)

/-- C8: no cross-pass leakage.  If two alternative first passes (batch
histories A and A', possibly under different environments and run ids)
both complete `on_test_end` normally, then running the same second pass
B from the resulting states yields identical outcomes — result, state
and the whole event trace (hence the published metrics): pass 2 is a
function of B alone. -/
theorem C8_no_cross_pass_leakage
    (A A2 B : List (Option BatchOutput)) (envA envA2 envB : MlflowEnv)
    (ridA ridA2 ridB : String)
    (h : (runPass envA ridA MetricsLoggingCallback.init A).1 =
      Except.ok ())
    (h2 : (runPass envA2 ridA2 MetricsLoggingCallback.init A2).1 =
      Except.ok ()) :
    runPass envB ridB
        (runPass envA ridA MetricsLoggingCallback.init A).2.1 B =
      runPass envB ridB
        (runPass envA2 ridA2 MetricsLoggingCallback.init A2).2.1 B := by
  unfold runPass at h h2 ⊢
  rw [on_test_end_ok_state envA ridA _ h,
    on_test_end_ok_state envA2 ridA2 _ h2]

theorem C8_no_cross_pass_leakage_witness :
    runPass envIdleOk "run2"
        (runPass envActiveOk "run1" MetricsLoggingCallback.init
          [some { logits := [[1]], labels := [[1]] }]).2.1
        [some { logits := [[3]], labels := [[0]] }] =
      runPass envIdleOk "run2"
        (runPass envActiveOk "run1" MetricsLoggingCallback.init
          [some { logits := [[2]], labels := [[0]] },
            some { logits := [[5]], labels := [[1]] }]).2.1
        [some { logits := [[3]], labels := [[0]] }] :=
  C8_no_cross_pass_leakage
    [some { logits := [[1]], labels := [[1]] }]
    [some { logits := [[2]], labels := [[0]] },
      some { logits := [[5]], labels := [[1]] }]
    [some { logits := [[3]], labels := [[0]] }]
    envActiveOk envActiveOk envIdleOk "run1" "run1" "run2"
    (by simp [runPass, runBatches, List.foldl, on_test_batch_end,
      MetricsLoggingCallback.init, on_test_end, envActiveOk,
      npConcatenate, reportMetrics, calculate_metrics, npSigmoid])
    (by simp [runPass, runBatches, List.foldl, on_test_batch_end,
      MetricsLoggingCallback.init, on_test_end, envActiveOk,
      npConcatenate, reportMetrics, calculate_metrics, npSigmoid])

/-- The three-batch, size-1 scenario from the spec's end-to-end
property: logits 2.0, -1.0, 0.0 with labels 1, 0, 1. -/
noncomputable def scenarioState : MetricsLoggingCallback :=
  runBatches MetricsLoggingCallback.init
    [some { logits := [[2]], labels := [[1]] },
      some { logits := [[-1]], labels := [[0]] },
      some { logits := [[0]], labels := [[1]] }]

/-- Completing the scenario pass with no active run and a reachable
backend. -/
noncomputable def scenarioResult :
    Except PyError Unit × MetricsLoggingCallback × List RunEvent :=
  on_test_end envIdleOk "run0" scenarioState

theorem exp_sq_bounds :
    7.38 < Real.exp 1 * Real.exp 1 ∧ Real.exp 1 * Real.exp 1 < 7.40 := by
  have h1 := Real.exp_one_gt_d9
  have h2 := Real.exp_one_lt_d9
  constructor <;> nlinarith

theorem exp_neg_two_bounds :
    0.135 < Real.exp (-2) ∧ Real.exp (-2) < 0.136 := by
  obtain ⟨hlo, hhi⟩ := exp_sq_bounds
  have hx : Real.exp (-2) * (Real.exp 1 * Real.exp 1) = 1 := by
    rw [← Real.exp_add, ← Real.exp_add]
    norm_num [Real.exp_zero]
  have hp := Real.exp_pos (-2)
  constructor <;> nlinarith

theorem sigmoid_zero : sigmoid 0 = 0.5 := by
  unfold sigmoid
  rw [neg_zero, Real.exp_zero]
  norm_num

theorem sigmoid_two_approx : |sigmoid 2 - 0.881| < 0.001 := by
  obtain ⟨hlo, hhi⟩ := exp_neg_two_bounds
  have he : sigmoid 2 = 1 / (1 + Real.exp (-2)) := rfl
  have hd : (0 : ℝ) < 1 + Real.exp (-2) := by positivity
  have key : 1 / (1 + Real.exp (-2)) * (1 + Real.exp (-2)) = 1 :=
    one_div_mul_cancel (ne_of_gt hd)
  have hupos : 0 < 1 / (1 + Real.exp (-2)) := by positivity
  rw [he, abs_lt]
  constructor <;> nlinarith

theorem sigmoid_neg_one_approx : |sigmoid (-1) - 0.269| < 0.001 := by
  have h1 := Real.exp_one_gt_d9
  have h2 := Real.exp_one_lt_d9
  have he : sigmoid (-1) = 1 / (1 + Real.exp 1) := by
    unfold sigmoid
    norm_num
  have hd : (0 : ℝ) < 1 + Real.exp 1 := by positivity
  have key : 1 / (1 + Real.exp 1) * (1 + Real.exp 1) = 1 :=
    one_div_mul_cancel (ne_of_gt hd)
  have hupos : 0 < 1 / (1 + Real.exp 1) := by positivity
  rw [he, abs_lt]
  constructor <;> nlinarith

/-- C9: end-to-end scenario.  After three size-1 batches with logits
2.0, -1.0, 0.0 and labels 1, 0, 1, `on_test_end` completes normally,
publish is invoked exactly once, the metrics are calculated against
labels [1, 0, 1] and the aggregated sigmoid probabilities, and those
probabilities are approximately 0.881, 0.269 and exactly 0.5. -/
theorem C9_end_to_end_scenario :
    scenarioResult.1 = Except.ok () ∧
    scenarioResult.2.2.countP (fun e => e.isPublish) = 1 ∧
    RunEvent.calculate [[1], [0], [1]]
        [[sigmoid 2], [sigmoid (-1)], [sigmoid 0]] ∈ scenarioResult.2.2 ∧
    |sigmoid 2 - 0.881| < 0.001 ∧
    |sigmoid (-1) - 0.269| < 0.001 ∧
    sigmoid 0 = 0.5 := by
  have hstate : scenarioState =
      { all_preds := [[[2]], [[-1]], [[0]]],
        all_labels := [[[1]], [[0]], [[1]]] } := by
    simp [scenarioState, runBatches, List.foldl, on_test_batch_end,
      MetricsLoggingCallback.init]
  have htrace : scenarioResult =
      (Except.ok (), { all_preds := [], all_labels := [] },
        [RunEvent.setTrackingUri envIdleOk.tracking_uri,
          RunEvent.enterRun "run0",
          RunEvent.calculate [[1], [0], [1]]
            [[sigmoid 2], [sigmoid (-1)], [sigmoid 0]],
          RunEvent.publish,
          RunEvent.exitRun "run0"]) := by
    simp [scenarioResult, hstate, on_test_end, envIdleOk, npConcatenate,
      reportMetrics, calculate_metrics, npSigmoid]
  refine ⟨by rw [htrace], ?_, ?_, sigmoid_two_approx,
    sigmoid_neg_one_approx, sigmoid_zero⟩
  · rw [htrace]
    simp [List.countP_cons, RunEvent.isPublish]
  · rw [htrace]
    simp
